import Mathlib

/-!
Shallow embedding of the `seawater` Go package (UNESCO 1983 / EOS-80
seawater property routines) over the real numbers, together with proofs
of the behavioural properties stated in the specification.

Each `sw_*` definition below mirrors the Go function of the same name in
`seawater.go`, with `float64` arithmetic modelled by exact real
arithmetic: decimal literals are the exact rationals written in the
source, `math.Sqrt` is `Real.sqrt`, `math.Pow` is `Real.rpow`,
`math.Sin` is `Real.sin`, `math.Abs` is `abs`, `math.Pi` is `Real.pi`.
-/

namespace Seawater

noncomputable section

/-- Density of Standard Mean Ocean Water (pure water), EOS 1980.
Mirrors `sw_smow`: a 5th-degree Horner polynomial in the temperature. -/
def sw_smow (T : ℝ) : ℝ :=
  999.842594 + (6.793952e-2 + (-9.095290e-3 + (1.001685e-4 +
    (-1.120083e-6 + 6.536332e-9 * T) * T) * T) * T) * T

/-- Convert ITS-90 temperature to IPTS-68. Mirrors `sw_T68conv`. -/
def sw_T68conv (T90 : ℝ) : ℝ :=
  T90 * 1.00024

/-- Convert IPTS-68 or IPTS-48 temperature to ITS-90. Mirrors
`sw_T90conv`. In the Go source the result variable `T90` is declared
with `var T90 float64` (zero value); on the branch where `t_type` is
neither "T68" nor "T48" the code builds an error value with
`errors.New` but discards it and returns `T90` unmodified, so that
branch returns 0. -/
def sw_T90conv (t : ℝ) (t_type : String) : ℝ :=
  if t_type = "T68" then
    t / 1.00024
  else if t_type = "T48" then
    (t - 4.4e-6 * t * (100 - t)) / 1.00024
  else
    0

/-- Density of sea water at atmospheric pressure, UNESCO 1983 (EOS 1980)
polynomial. Mirrors `sw_dens0`. -/
def sw_dens0 (S T : ℝ) : ℝ :=
  sw_smow T
    + (8.24493e-1 + (-4.0899e-3 + (7.6438e-5 + (-8.2467e-7 +
        5.3875e-9 * T) * T) * T) * T) * S
    + (-5.72466e-3 + (1.0227e-4 + -1.6546e-6 * T) * T) * S * Real.sqrt S
    + 4.8314e-4 * S * S

/-- Secant bulk modulus (K) of sea water, EOS 1980 UNESCO polynomial.
Mirrors `sw_seck`, including the initial conversion of the pressure
from decibars to bars (`P / 10`). -/
def sw_seck (S T P : ℝ) : ℝ :=
  let P := P / 10.0
  let AW := 3.239908 + (1.43713e-3 + (1.16092e-4 + -5.77905e-7 * T) * T) * T
  let BW := 8.50935e-5 + (-6.12293e-6 + 5.2787e-8 * T) * T
  let KW := 19652.21 + (148.4206 + (-2.327105 + (1.360477e-2 +
    -5.155288e-5 * T) * T) * T) * T
  let SR := Real.sqrt S
  let A := AW + (2.2838e-3 + (-1.0981e-5 + -1.6078e-6 * T) * T + 1.91075e-4 * SR) * S
  let B := BW + (-9.9348e-7 + (2.0816e-8 + 9.1697e-10 * T) * T) * S
  let K0 := KW + (54.6746 + (-0.603459 + (1.09987e-2 + -6.1670e-5 * T) * T) * T
    + (7.944e-2 + (1.6483e-2 + -5.3009e-4 * T) * T) * SR) * S
  K0 + (A + B * P) * P

/-- Sound velocity in sea water, UNESCO 1983 polynomial. Mirrors
`sw_svel`, including the conversion of pressure to bars. -/
def sw_svel (S T P : ℝ) : ℝ :=
  let P := P / 10
  let Cw := 1402.388 + 5.03711 * T + -5.80852e-2 * T * T + 3.3420e-4 * T * T * T
    + -1.47800e-6 * T * T * T * T + 3.1464e-9 * T * T * T * T * T
    + (0.153563 + 6.8982e-4 * T + -8.1788e-6 * T * T + 1.3621e-7 * T * T * T
      + -6.1185e-10 * T * T * T * T) * P
    + (3.1260e-5 + -1.7107e-6 * T + 2.5974e-8 * T * T + -2.5335e-10 * T * T * T
      + 1.0405e-12 * T * T * T * T) * P * P
    + (-9.7729e-9 + 3.8504e-10 * T + -2.3643e-12 * T * T) * P * P * P
  let A := 1.389 + -1.262e-2 * T + 7.164e-5 * T * T + 2.006e-6 * T * T * T
    + -3.21e-8 * T * T * T * T
    + (9.4742e-5 + -1.2580e-5 * T + -6.4885e-8 * T * T + 1.0507e-8 * T * T * T
      + -2.0122e-10 * T * T * T * T) * P
    + (-3.9064e-7 + 9.1041e-9 * T + -1.6002e-10 * T * T + 7.988e-12 * T * T * T) * P * P
    + (1.100e-10 + 6.649e-12 * T + -3.389e-13 * T * T) * P * P * P
  let B := -1.922e-2 + -4.42e-5 * T + (7.3637e-5 + 1.7945e-7 * T) * P
  let D := 1.727e-3 + -7.9836e-6 * P
  Cw + A * S + B * S * Real.sqrt S + D * S * S

/-- Depth in metres from pressure in decibars and latitude in degrees.
Mirrors `sw_dpth`: the latitude enters only through `math.Abs(LAT)`. -/
def sw_dpth (P LAT : ℝ) : ℝ :=
  let DEG2RAD := Real.pi / 180
  let LAT := |LAT|
  let X := Real.sin (LAT * DEG2RAD)
  let X := X * X
  let bot_line := 9.780318 * (1.0 + (5.2788e-3 + 2.36e-5 * X) * X) + 2.184e-6 * 0.5 * P
  let top_line := (((-1.82e-15 * P + 2.279e-10) * P + -2.2512e-5) * P + 9.72659) * P
  top_line / bot_line

/-- Adiabatic temperature gradient, UNESCO 1983. Mirrors `sw_adtg`. -/
def sw_adtg (S T P : ℝ) : ℝ :=
  3.5803e-5 + (8.5258e-6 + (-6.836e-8 + 6.6228e-10 * T) * T) * T
    + (1.8932e-6 + -4.2393e-8 * T) * (S - 35)
    + ((1.8741e-8 + (-6.7795e-10 + (8.733e-12 + -5.4481e-14 * T) * T) * T)
        + (-1.1351e-10 + 2.7759e-12 * T) * (S - 35)) * P
    + (-4.6206e-13 + (1.8676e-14 + -2.1687e-16 * T) * T) * P * P

/-- Potential temperature, UNESCO 1983 single-step RK4 integration of
the adiabatic gradient from pressure `P` to reference pressure `PR`.
Mirrors `sw_ptmp` stage by stage, with the same intermediate names. -/
def sw_ptmp (S T P PR : ℝ) : ℝ :=
  let del_P := PR - P
  let del_th := del_P * sw_adtg S T P
  let th := T + 0.5 * del_th
  let q := del_th
  let del_th := del_P * sw_adtg S th (P + 0.5 * del_P)
  let th := th + (1 - 1 / Real.sqrt 2) * (del_th - q)
  let q := (2 - Real.sqrt 2) * del_th + (-2 + 3 / Real.sqrt 2) * q
  let del_th := del_P * sw_adtg S th (P + 0.5 * del_P)
  let th := th + (1 + 1 / Real.sqrt 2) * (del_th - q)
  let q := (2 + Real.sqrt 2) * del_th + (-2 - 3 / Real.sqrt 2) * q
  let del_th := del_P * sw_adtg S th (P + del_P)
  th + (del_th - 2 * q) / 6

/-- In-situ density of sea water, UNESCO 1983 (EOS 80). Mirrors
`sw_dens`: atmospheric density divided by the bulk-modulus correction,
with the pressure converted from decibars to bars. -/
def sw_dens (S T P : ℝ) : ℝ :=
  let densP0 := sw_dens0 S T
  let K := sw_seck S T P
  let P := P / 10.0
  densP0 / (1 - P / K)

/-- Sigma-t. Mirrors `sw_sigmat`: the pressure argument is accepted but
unused; the density is always evaluated at pressure 0. -/
def sw_sigmat (S T P : ℝ) : ℝ :=
  sw_dens S T 0 - 1000.0

/-- Sigma-theta. Mirrors `sw_sigmateta`. -/
def sw_sigmateta (S T P : ℝ) : ℝ :=
  sw_dens S (sw_ptmp S T P 0) 0 - 1000.0

/-- Specific volume anomaly. Mirrors `sw_svan`. -/
def sw_svan (S T P : ℝ) : ℝ :=
  (1 / sw_dens S T P) - (1 / sw_dens 35 0 P)

/-- Coefficient table `a` of `sw_sal` (PSS-78 power series). -/
def sal_a : ℕ → ℝ
  | 0 => 0.0080
  | 1 => -0.1692
  | 2 => 25.3851
  | 3 => 14.0941
  | 4 => -7.0261
  | 5 => 2.7081
  | _ => 0

/-- Coefficient table `b` of `sw_sal` (PSS-78 power series). -/
def sal_b : ℕ → ℝ
  | 0 => 0.0005
  | 1 => -0.0056
  | 2 => -0.0066
  | 3 => -0.0375
  | 4 => 0.0636
  | 5 => -0.0144
  | _ => 0

/-- Salinity from conductivity, temperature and pressure. Mirrors
`sw_sal`: non-positive conductivity short-circuits to 0 before any
rescaling; otherwise the conductivity is rescaled to mmhos/cm, the
conductivity ratio `r` is formed from two nested rational polynomials,
and the two 6-term power series in `r^(i/2)` are summed as in the Go
range loop (`math.Pow(r, float64(i)/2)` becomes `Real.rpow`). -/
def sw_sal (C T P : ℝ) : ℝ :=
  if C ≤ 0 then 0
  else
    let C := C * 10 / 42.914
    let r := 1 + (P * (2.070e-5 + P * (-6.370e-10 + P * 3.989e-15)))
      / (1 + 3.426e-2 * T + 4.464e-4 * T * T + 4.215e-1 * C + -3.107e-3 * C * T)
    let r := C / (r * (6.766097e-1 + T * (2.00564e-2 + T * (1.104259e-4
      + T * (-6.9698e-7 + T * 1.0031e-9)))))
    let sum1 := Finset.sum (Finset.range 6) (fun i => sal_a i * Real.rpow r ((i : ℝ) / 2))
    let sum2 := Finset.sum (Finset.range 6) (fun i => sal_b i * Real.rpow r ((i : ℝ) / 2))
    let T := T - 15
    sum1 + sum2 * T / (1 + 0.0162 * T)

/-- The four-stage single-step RK4 scheme exactly as the specification
describes it (spec section 4.8): `θ1 = T + 0.5·ΔP·G(S,T,P)` with
accumulated correction `q = Δθ1`; stage 2 evaluates `G` at
`(S, θ1, P+0.5ΔP)` and updates `θ` and `q` with the coefficients
`(1 − 1/√2)`, `(2 − √2)`, `(−2 + 3/√2)`; stage 3 evaluates `G` at
`(S, θ2, P+0.5ΔP)` with coefficients `(1 + 1/√2)`, `(2 + √2)`,
`(−2 − 3/√2)`; stage 4 evaluates `G` at `(S, θ3, P+ΔP)` and returns
`PT = θ3 + (Δθ4 − 2q)/6`, where `G` is the adiabatic gradient and
`ΔP = PR − P` is fixed for the whole integration. -/
def ptmpRK4Spec (S T P PR : ℝ) : ℝ :=
  let dP := PR - P
  let dth1 := dP * sw_adtg S T P
  let th1 := T + 0.5 * dP * sw_adtg S T P
  let q1 := dth1
  let dth2 := dP * sw_adtg S th1 (P + 0.5 * dP)
  let th2 := th1 + (1 - 1 / Real.sqrt 2) * (dth2 - q1)
  let q2 := (2 - Real.sqrt 2) * dth2 + (-2 + 3 / Real.sqrt 2) * q1
  let dth3 := dP * sw_adtg S th2 (P + 0.5 * dP)
  let th3 := th2 + (1 + 1 / Real.sqrt 2) * (dth3 - q2)
  let q3 := (2 + Real.sqrt 2) * dth3 + (-2 - 3 / Real.sqrt 2) * q2
  let dth4 := dP * sw_adtg S th3 (P + dP)
  th3 + (dth4 - 2 * q3) / 6

end

end Seawater

namespace Seawater

/-- C2: potential temperature with reference pressure equal to the
in-situ pressure is the identity on temperature: `ΔP = PR − P = 0`
makes every Runge-Kutta stage correction zero. -/
theorem ptmp_self_pressure_id (S T P : ℝ) : sw_ptmp S T P P = T := by
  simp [sw_ptmp, sub_self]

/-- C3: in-situ density at zero pressure equals atmospheric density
exactly: the pressure/bulk-modulus correction term vanishes at `P = 0`. -/
theorem dens_zero_pressure (S T : ℝ) : sw_dens S T 0 = sw_dens0 S T := by
  simp [sw_dens]

/-- C4: for non-positive conductivity, salinity is exactly 0: the
degenerate case is a defined result, not an error. -/
theorem sal_nonpos_conductivity (C T P : ℝ) (h : C ≤ 0) : sw_sal C T P = 0 := by
  simp [sw_sal, h]

/-- Witness for C4 at the concrete input `C = 0, T = 5, P = 100`. -/
theorem sal_nonpos_conductivity_witness :
    (0 : ℝ) ≤ 0 ∧ sw_sal 0 5 100 = 0 :=
  ⟨le_refl 0, sal_nonpos_conductivity 0 5 100 (le_refl 0)⟩

/-- C5: `sw_ptmp` computes exactly the four-stage single-step RK4
scheme with fixed `ΔP = PR − P` described by the specification. -/
theorem ptmp_is_rk4_spec (S T P PR : ℝ) : sw_ptmp S T P PR = ptmpRK4Spec S T P PR := by
  simp only [sw_ptmp, ptmpRK4Spec]
  ring_nf

/-- C6: sigma-t satisfies the definitional identity
`sw_sigmat S T P = sw_dens S T 0 − 1000`; the pressure argument `P`
does not influence the result. -/
theorem sigmat_def_identity (S T P : ℝ) : sw_sigmat S T P = sw_dens S T 0 - 1000 := by
  norm_num [sw_sigmat]

/-- C7: depth is invariant under the sign of the latitude, since only
the absolute value of the latitude enters the gravity term. -/
theorem dpth_lat_sign_invariant (P LAT : ℝ) : sw_dpth P LAT = sw_dpth P (-LAT) := by
  simp [sw_dpth, abs_neg]

/-- C10: on any scale identifier other than "T68" and "T48",
`sw_T90conv` returns exactly 0 regardless of the input temperature:
the result variable keeps its zero value and the constructed error is
discarded. -/
theorem T90conv_unknown_scale_zero (t : ℝ) (t_type : String)
    (h68 : t_type ≠ "T68") (h48 : t_type ≠ "T48") : sw_T90conv t t_type = 0 := by
  simp [sw_T90conv, h68, h48]

/-- Witness for C10 at the concrete input `t = 20`, scale "T99". -/
theorem T90conv_unknown_scale_zero_witness : sw_T90conv 20 "T99" = 0 :=
  T90conv_unknown_scale_zero 20 "T99" (by decide) (by decide)

/-- Rational lower bound on the square root of the fixture salinity. -/
lemma sqrt_3467_lb : (5.888123 : ℝ) ≤ Real.sqrt 34.67 := by
  have h : Real.sqrt (5.888123 ^ 2) ≤ Real.sqrt 34.67 := Real.sqrt_le_sqrt (by norm_num)
  rwa [Real.sqrt_sq (by norm_num)] at h

/-- Rational upper bound on the square root of the fixture salinity. -/
lemma sqrt_3467_ub : Real.sqrt 34.67 ≤ 5.888124 := by
  have h : Real.sqrt 34.67 ≤ Real.sqrt (5.888124 ^ 2) := Real.sqrt_le_sqrt (by norm_num)
  rwa [Real.sqrt_sq (by norm_num)] at h

/-- Bounds on the atmospheric density at the UNESCO deep-water fixture
input `S = 34.67`, `T = 2.48`. -/
lemma dens0_fixture_bounds :
    (1027.667814 : ℝ) ≤ sw_dens0 34.67 2.48 ∧ sw_dens0 34.67 2.48 ≤ 1027.667816 := by
  have h1 := sqrt_3467_lb
  have h2 := sqrt_3467_ub
  unfold sw_dens0 sw_smow
  constructor <;> nlinarith [h1, h2]

/-- Bounds on the secant bulk modulus at the UNESCO deep-water fixture
input `S = 34.67`, `T = 2.48`, `P = 10035`. -/
lemma seck_fixture_bounds :
    (25286.956 : ℝ) ≤ sw_seck 34.67 2.48 10035 ∧ sw_seck 34.67 2.48 10035 ≤ 25286.957 := by
  have h1 := sqrt_3467_lb
  have h2 := sqrt_3467_ub
  dsimp only [sw_seck]
  constructor <;> nlinarith [h1, h2]

/-- C9: the UNESCO deep-water reference fixture: the density at
`S = 34.67`, `T = 2.48`, `P = 10035` lies in `[1070.1355, 1070.1365)`,
so it rounds to `1070.136` at three decimal places. -/
theorem dens_deep_fixture_3dp :
    (1070.1355 : ℝ) ≤ sw_dens 34.67 2.48 10035 ∧ sw_dens 34.67 2.48 10035 < 1070.1365 := by
  have hd0 := dens0_fixture_bounds
  have hK := seck_fixture_bounds
  have hKpos : (0 : ℝ) < sw_seck 34.67 2.48 10035 := lt_of_lt_of_le (by norm_num) hK.1
  have hqu : (1003.5 : ℝ) / sw_seck 34.67 2.48 10035 ≤ 0.03968450 := by
    rw [div_le_iff₀ hKpos]
    nlinarith [hK.1]
  have hql : (0.03968448 : ℝ) ≤ 1003.5 / sw_seck 34.67 2.48 10035 := by
    rw [le_div_iff₀ hKpos]
    nlinarith [hK.2]
  have hDpos : (0 : ℝ) < 1 - 1003.5 / sw_seck 34.67 2.48 10035 := by linarith
  have hdens : sw_dens 34.67 2.48 10035
      = sw_dens0 34.67 2.48 / (1 - 1003.5 / sw_seck 34.67 2.48 10035) := by
    dsimp only [sw_dens]
    norm_num
  rw [hdens]
  constructor
  · rw [le_div_iff₀ hDpos]
    nlinarith [hd0.1, hqu]
  · rw [div_lt_iff₀ hDpos]
    nlinarith [hd0.2, hql]

/-- C1 (failing input for the claim): at temperature 10 with the
unrecognized scale identifier "T99", `sw_T90conv` returns the plain
value 0 — its return type has no error channel, so no invalid-argument
error is surfaced to the caller, contrary to the specification's
requirement. -/
theorem T90conv_unknown_scale_no_error : sw_T90conv 10 "T99" = 0 := by
  simp [sw_T90conv]

end Seawater
